import Mathlib

/-!
Verification development for the generation pipeline of the
ai-blueprint-boilerplate repository.

The executable core of the repository is the token-generation script
(`src/tokens/index.ts`, the `generate:tokens` script): it parses
`design-tokens.json` and sequentially writes four token modules
(`colors.ts`, `typography.ts`, `spacing.ts`, `effects.ts`).  The
component-generation script (`generate-components`) is a placeholder that
only prints informational messages.  The token-fallback resolution pattern
appears in the code-standards document, and the naming-sanitization rules
appear in `docs/ai-instructions/BOOTSTRAP_WORKFLOW.md`.

All definitions below are shallow embeddings of those sources.  JavaScript
strings are modelled as `String`, JSON field absence as `Option`, file
writes as an ordered list of `(path, content)` pairs, and an uncaught
runtime exception (which makes node exit non-zero) as an explicit outcome
constructor.  Single quotes appearing in generated TypeScript text are
written with the escape `\x27`, and braces with `\x7b`/`\x7d`.
-/

namespace Blueprint

/-- The single-quote character used by the generated TypeScript modules. -/
def squote : Char := Char.ofNat 39

/-- One record of the `colors`, `spacing` or `effects` arrays of
`design-tokens.json`: `{ name, value }`. -/
structure Token where
  name : String
  value : String
  deriving DecidableEq, Repr

/-- One record of the `typography` array of `design-tokens.json`. -/
structure TypographyToken where
  name : String
  fontFamily : String
  fontSize : String
  fontWeight : Int
  lineHeight : String
  deriving DecidableEq, Repr

/-- The parsed `design-tokens.json` document.  Each category field is
`none` when the corresponding array is absent from the document
(JavaScript `undefined`). -/
structure TokenDoc where
  colors : Option (List Token)
  typography : Option (List TypographyToken)
  spacing : Option (List Token)
  effects : Option (List Token)
  deriving DecidableEq, Repr

/-- The per-token line of the colors/spacing/effects templates:
`  '${t.name}': '${t.value}',`. -/
def tokenLine (t : Token) : String :=
  "  \x27" ++ t.name ++ "\x27: \x27" ++ t.value ++ "\x27,"

/-- The `colorsContent` template literal of the script. -/
def colorsContent (ts : List Token) : String :=
  "/**\n * Color Tokens\n * Generated from design-tokens.json\n * DO NOT EDIT: This file is auto-generated\n */\n\nexport const colors = \x7b\n"
  ++ String.intercalate "\n" (ts.map tokenLine)
  ++ "\n\x7d as const;\n\nexport type ColorToken = keyof typeof colors;\n"

/-- The per-token entry of the `typographyContent` template:
`  '${t.name}': { fontFamily... },` spread over six lines. -/
def typographyEntry (t : TypographyToken) : String :=
  "  \x27" ++ t.name ++ "\x27: \x7b\n    fontFamily: \x27" ++ t.fontFamily
  ++ "\x27,\n    fontSize: \x27" ++ t.fontSize
  ++ "\x27,\n    fontWeight: " ++ toString t.fontWeight
  ++ ",\n    lineHeight: \x27" ++ t.lineHeight ++ "\x27,\n  \x7d,"

/-- The `typographyContent` template literal of the script. -/
def typographyContent (ts : List TypographyToken) : String :=
  "/**\n * Typography Tokens\n * Generated from design-tokens.json\n * DO NOT EDIT: This file is auto-generated\n */\n\nexport const typography = \x7b\n"
  ++ String.intercalate "\n" (ts.map typographyEntry)
  ++ "\n\x7d as const;\n\nexport type TypographyToken = keyof typeof typography;\n"

/-- The `spacingContent` template literal of the script. -/
def spacingContent (ts : List Token) : String :=
  "/**\n * Spacing Tokens\n * Generated from design-tokens.json\n * DO NOT EDIT: This file is auto-generated\n */\n\nexport const spacing = \x7b\n"
  ++ String.intercalate "\n" (ts.map tokenLine)
  ++ "\n\x7d as const;\n\nexport type SpacingToken = keyof typeof spacing;\n"

/-- The `effectsContent` template literal of the script. -/
def effectsContent (ts : List Token) : String :=
  "/**\n * Effect Tokens\n * Generated from design-tokens.json\n * DO NOT EDIT: This file is auto-generated\n */\n\nexport const effects = \x7b\n"
  ++ String.intercalate "\n" (ts.map tokenLine)
  ++ "\n\x7d as const;\n\nexport type EffectToken = keyof typeof effects;\n"

def colorsPath : String := "src/tokens/colors.ts"
def typographyPath : String := "src/tokens/typography.ts"
def spacingPath : String := "src/tokens/spacing.ts"
def effectsPath : String := "src/tokens/effects.ts"

/-- How a run of the `generate:tokens` script terminates.
`missingFile` is the explicit `process.exit(1)` guard; `parseError` is an
uncaught `JSON.parse` exception; `typeError f` is the uncaught
`TypeError` raised by `tokens.f.map(...)` when field `f` is absent (node
exits non-zero on an uncaught exception).  `schemaError` is the error
class of the specification's taxonomy; the script contains no such class
and the embedding never produces this constructor — it exists only so
that statements can distinguish it from the errors that do occur. -/
inductive RunOutcome
  | ok
  | missingFile
  | parseError
  | typeError (field : String)
  | schemaError (field : String)
  deriving DecidableEq, Repr

/-- Result of one run of the `generate:tokens` script: the ordered
`fs.writeFileSync` calls that happened before termination, and the
outcome. -/
structure RunResult where
  writes : List (String × String)
  outcome : RunOutcome
  deriving DecidableEq, Repr

/-- Process exit code of a run: 0 on a run that reaches the final log
line, 1 on the explicit `process.exit(1)` and on any uncaught
exception. -/
def exitCode (r : RunResult) : Nat :=
  match r.outcome with
  | .ok => 0
  | _ => 1

/-- Shallow embedding of the `generate:tokens` script
(`src/tokens/index.ts`, lines 11-107).  `fileExists` models the
`fs.existsSync(tokensFile)` guard; `parsed` is `none` when `JSON.parse`
throws.  The script computes each category's content (crashing with a
`TypeError` if the category array is absent — only `spacing` is guarded
with `tokens.spacing || []`) and then writes it, in the fixed order
colors, typography, spacing, effects.  Console logging is not modelled. -/
def runTokensScript (fileExists : Bool) (parsed : Option TokenDoc) : RunResult :=
  if fileExists then
    match parsed with
    | none => ⟨[], .parseError⟩
    | some tokens =>
      match tokens.colors with
      | none => ⟨[], .typeError "colors"⟩
      | some cs =>
        match tokens.typography with
        | none => ⟨[(colorsPath, colorsContent cs)], .typeError "typography"⟩
        | some ty =>
          let sp := tokens.spacing.getD []
          match tokens.effects with
          | none =>
            ⟨[(colorsPath, colorsContent cs), (typographyPath, typographyContent ty),
              (spacingPath, spacingContent sp)], .typeError "effects"⟩
          | some ef =>
            ⟨[(colorsPath, colorsContent cs), (typographyPath, typographyContent ty),
              (spacingPath, spacingContent sp), (effectsPath, effectsContent ef)], .ok⟩
  else ⟨[], .missingFile⟩

/-- A catalog entry as far as the component-generation surface is
concerned: its external name and the `componentRef` names of its
children. -/
structure CatalogEntry where
  name : String
  componentRefs : List String
  deriving DecidableEq, Repr

/-- Result of one run of the `generate-components` script: file writes,
reported `ManualEditConflict` paths, a raised error (if any), and the
exit code. -/
structure ComponentGenResult where
  writes : List (String × String)
  conflicts : List String
  error : Option String
  exitCode : Nat
  deriving DecidableEq, Repr

/-- Shallow embedding of the `generate-components` script
(the repository's component-generation entry point).  The script only
prints informational messages: it reads neither the component catalog
nor any existing file, writes no files, reports no conflicts, raises no
error and exits 0.  The `catalog` and `files` parameters model the
ambient project state, which the script ignores entirely. -/
def runGenerateComponents (_catalog : List CatalogEntry)
    (_files : List (String × String)) : ComponentGenResult :=
  ⟨[], [], none, 0⟩

/-- Write one file into a modelled file system (association list from
path to content): overwrite in place if the path exists, append
otherwise. -/
def setFile (files : List (String × String)) (p c : String) :
    List (String × String) :=
  if files.any (fun f => f.1 == p) then
    files.map (fun f => if f.1 == p then (p, c) else f)
  else files ++ [(p, c)]

/-- Apply a run's ordered writes to a modelled file system. -/
def applyWrites (files : List (String × String))
    (ws : List (String × String)) : List (String × String) :=
  ws.foldl (fun fs w => setFile fs w.1 w.2) files

/-- `hasRef c a b` holds when catalog `c` has an entry named `a` with a
child `componentRef` naming `b` (the dependency edge `a → b`). -/
def hasRef (c : List CatalogEntry) (a b : String) : Bool :=
  c.any (fun e => e.name == a && e.componentRefs.contains b)

/-- A styled value as it appears in the design export: an optional token
binding and an optional raw literal. -/
structure StyledValue where
  tokenName : Option String
  value : Option String
  deriving DecidableEq, Repr

/-- JavaScript truthiness of an optional string: `undefined` and the
empty string are falsy. -/
def truthyStr : Option String → Bool
  | none => false
  | some s => s != ""

/-- `colors[n]`: keyed access into the loaded color token mapping;
`none` models `undefined`. -/
def lookupToken (colors : List Token) (n : String) : Option String :=
  (colors.find? (fun t => t.name == n)).map Token.value

/-- Shallow embedding of the token-fallback resolution pattern of the
code-standards document (the `Handle Missing Data` example):
`styles.backgroundColor?.tokenName ? colors[tokenName] : styles.backgroundColor?.value || colors.default`.
The conditional uses JavaScript truthiness, so an empty-string
`tokenName` falls through to the literal branch. -/
def resolveStyled (colors : List Token) (sv : StyledValue) : Option String :=
  if truthyStr sv.tokenName then lookupToken colors (sv.tokenName.getD "")
  else if truthyStr sv.value then sv.value
  else lookupToken colors "default"

/-- Modelled from the spec: the prefix segments stripped by the naming
normalizer, per the sanitization rules of
`docs/ai-instructions/BOOTSTRAP_WORKFLOW.md` (`DS/`, `Components/`,
`Primitive`).  The normalizer implementation itself (`bootstrap.js`) is
not among the repository sources. -/
def configuredStrips : List String := ["DS", "Components", "Primitive"]

/-- Capitalize the first character of one name segment. -/
def capitalizeSegment (s : String) : String :=
  match s.data with
  | [] => ""
  | c :: cs => String.mk (c.toUpper :: cs)

/-- Modelled from the spec: sanitization of an external name
(BOOTSTRAP_WORKFLOW.md): strip configured leading path segments, then
convert the remainder to PascalCase (`button-primary` → `ButtonPrimary`). -/
def sanitize (name : String) : String :=
  let segs := (name.splitOn "/").dropWhile (fun s => configuredStrips.contains s)
  String.join (((segs.map (fun s => s.splitOn "-")).flatten).map capitalizeSegment)

/-- Modelled from the spec: external-library detection by configured
pattern (`icon/`, `@heroicons/`). -/
def isExternalName (name : String) : Bool :=
  name.startsWith "icon/" || name.startsWith "@heroicons/"

/-- One record of `naming-registry.json`. -/
structure NamingAlias where
  figmaName : String
  codeName : String
  isExternalLibrary : Bool
  deriving DecidableEq, Repr

/-- The `k`-th candidate identifier for a base name: the base itself,
then `base2`, `base3`, ... -/
def candName (base : String) : Nat → String
  | 0 => base
  | k + 1 => base ++ toString (k + 2)

/-- Modelled from the spec: numeric-suffix collision disambiguation
(spec §4.2): the first candidate identifier not already taken by an
existing alias, in first-seen order. -/
def disambiguate (reg : List NamingAlias) (base : String) : String :=
  match (List.range (reg.length + 1)).find?
      (fun k => !((reg.map NamingAlias.codeName).contains (candName base k))) with
  | some k => candName base k
  | none => candName base (reg.length + 1)

/-- Modelled from the spec: the naming normalizer (spec §4.2 and the
BOOTSTRAP_WORKFLOW.md sanitization rules; its implementation,
`bootstrap.js`, is not among the repository sources).  An external name
already present in the alias registry is mapped to its recorded
identifier and the registry is unchanged; a new name is sanitized,
disambiguated against the taken identifiers, and appended to the
registry. -/
def normalize (reg : List NamingAlias) (name : String) :
    String × List NamingAlias :=
  match reg.find? (fun a => a.figmaName == name) with
  | some a => (a.codeName, reg)
  | none =>
    let c := disambiguate reg (sanitize name)
    (c, reg ++ [{ figmaName := name, codeName := c,
                  isExternalLibrary := isExternalName name }])

/-- Recover the token name from one generated entry line: drop the
leading `  '` and take characters up to the closing quote. -/
def entryName (s : String) : String :=
  String.mk ((s.data.drop 3).takeWhile (fun c => c != squote))

/-- Success of a run of the `generate:tokens` script, characterized from
the spec's wording: the input file exists, parses, and every category
array the script accesses unguarded is present. -/
def scriptSucceeds (fe : Bool) (p : Option TokenDoc) : Prop :=
  fe = true ∧ ∃ d, p = some d ∧
    d.colors ≠ none ∧ d.typography ≠ none ∧ d.effects ≠ none

/-! ## Helper lemmas -/

lemma takeWhile_ne_squote (l r : List Char) (h : ∀ c ∈ l, c ≠ squote) :
    (l ++ squote :: r).takeWhile (fun c => c != squote) = l := by
  induction l with
  | nil => simp
  | cons a t ih =>
    have ha : (a != squote) = true := by
      simpa using h a (by simp)
    simp only [List.cons_append, List.takeWhile_cons, ha, if_true]
    rw [ih (fun c hc => h c (by simp [hc]))]

lemma takeWhile_append_squote (l r : List Char) (h : ∀ c ∈ l, c ≠ squote)
    (hr : r.head? = some squote) :
    (l ++ r).takeWhile (fun c => c != squote) = l := by
  cases r with
  | nil => simp at hr
  | cons a t =>
    have : a = squote := by simpa using hr
    subst this
    exact takeWhile_ne_squote l t h

lemma entryName_tokenLine (t : Token) (h : ∀ c ∈ t.name.data, c ≠ squote) :
    entryName (tokenLine t) = t.name := by
  show String.mk ((((t.name.data ++ ("\x27: \x27").data) ++ t.value.data)
      ++ ("\x27,").data).takeWhile (fun c => c != squote)) = t.name
  simp only [List.append_assoc]
  rw [takeWhile_append_squote _ _ h (by rfl)]

lemma entryName_typographyEntry (t : TypographyToken)
    (h : ∀ c ∈ t.name.data, c ≠ squote) :
    entryName (typographyEntry t) = t.name := by
  show String.mk ((((((((((t.name.data
      ++ ("\x27: \x7b\n    fontFamily: \x27").data)
      ++ t.fontFamily.data)
      ++ ("\x27,\n    fontSize: \x27").data)
      ++ t.fontSize.data)
      ++ ("\x27,\n    fontWeight: ").data)
      ++ (toString t.fontWeight).data)
      ++ (",\n    lineHeight: \x27").data)
      ++ t.lineHeight.data)
      ++ ("\x27,\n  \x7d,").data).takeWhile (fun c => c != squote)) = t.name
  simp only [List.append_assoc]
  rw [takeWhile_append_squote _ _ h (by rfl)]

lemma map_entryName_tokenLine (ts : List Token)
    (h : ∀ t ∈ ts, ∀ c ∈ (Token.name t).data, c ≠ squote) :
    (ts.map tokenLine).map entryName = ts.map Token.name := by
  induction ts with
  | nil => rfl
  | cons a l ih =>
    simp only [List.map_cons]
    rw [entryName_tokenLine a (h a (by simp)),
      ih (fun t ht c hc => h t (by simp [ht]) c hc)]

lemma map_entryName_typographyEntry (ts : List TypographyToken)
    (h : ∀ t ∈ ts, ∀ c ∈ (TypographyToken.name t).data, c ≠ squote) :
    (ts.map typographyEntry).map entryName = ts.map TypographyToken.name := by
  induction ts with
  | nil => rfl
  | cons a l ih =>
    simp only [List.map_cons]
    rw [entryName_typographyEntry a (h a (by simp)),
      ih (fun t ht c hc => h t (by simp [ht]) c hc)]

lemma find?_append_of_none {α : Type} (p : α → Bool) (l₁ l₂ : List α)
    (h : l₁.find? p = none) : (l₁ ++ l₂).find? p = l₂.find? p := by
  induction l₁ with
  | nil => rfl
  | cons a t ih =>
    cases hp : p a with
    | true => simp [List.find?_cons, hp] at h
    | false =>
      simp only [List.find?_cons, hp] at h
      simpa only [List.cons_append, List.find?_cons, hp] using ih h

/-! ## Claims -/

/-- C1 (counterexample): a previously generated Button stub whose
hand-authored region was modified, regenerated against a changed
catalog: the claim demands exactly one `ManualEditConflict` for the
path, but the component-generation script reports zero conflicts. -/
theorem componentGen_reportsNoConflict :
    (runGenerateComponents [⟨"Button", []⟩]
      [("src/components/Button/Button.tsx", "hand-edited body")]).conflicts.length = 0 ∧
    ¬ (runGenerateComponents [⟨"Button", []⟩]
      [("src/components/Button/Button.tsx", "hand-edited body")]).conflicts.length = 1 := by
  decide

/-- C1 (amended): re-running component generation never modifies any
file — the script performs no writes whatsoever, so every hand-authored
region is left byte-identical — but it reports no `ManualEditConflict`
at all: conflict detection is not implemented. -/
theorem componentGen_preservesFiles (catalog : List CatalogEntry)
    (files : List (String × String)) :
    applyWrites files (runGenerateComponents catalog files).writes = files ∧
    (runGenerateComponents catalog files).conflicts = [] :=
  ⟨rfl, rfl⟩

/-- C2 (counterexample): the token document `{colors: []}` (typography
array absent) makes the run abort with an uncaught TypeError, yet
`colors.ts` has already been written: a failing run is not
all-or-nothing. -/
theorem tokensRun_halfWritten_example :
    (runTokensScript true (some ⟨some [], none, none, none⟩)).writes ≠ [] ∧
    exitCode (runTokensScript true (some ⟨some [], none, none, none⟩)) ≠ 0 := by
  decide

/-- C2 (amended): the run is fail-closed only for failures that occur
before the first write: a missing `design-tokens.json`, a JSON parse
failure, or a missing `colors` array abort with no file written (and a
non-zero exit code); a failure at `typography` or `effects` occurs after
earlier modules were written. -/
theorem tokensRun_failClosed_beforeFirstWrite (fe : Bool) (p : Option TokenDoc)
    (h : fe = false ∨ p = none ∨ ∃ d, p = some d ∧ d.colors = none) :
    (runTokensScript fe p).writes = [] ∧ exitCode (runTokensScript fe p) = 1 := by
  rcases h with h | h | ⟨d, hp, hc⟩
  · subst h; exact ⟨rfl, rfl⟩
  · subst h
    cases fe <;> exact ⟨rfl, rfl⟩
  · subst hp
    cases fe with
    | false => exact ⟨rfl, rfl⟩
    | true =>
      simp [runTokensScript, exitCode, hc]

/-- C2 (witness). -/
theorem tokensRun_failClosed_beforeFirstWrite_witness :
    (runTokensScript false none).writes = [] ∧
    exitCode (runTokensScript false none) = 1 :=
  tokensRun_failClosed_beforeFirstWrite false none (Or.inl rfl)

/-- C3 (counterexample): on an unchanged, fully valid token document the
second run still performs four `fs.writeFileSync` calls — every token
module is rewritten on every run; the script has no change detection, so
the claim's "no file is rewritten on the second run" fails. -/
theorem tokensRun_secondRun_rewrites :
    (runTokensScript true (some ⟨some [], some [], some [], some []⟩)).writes.length = 4 ∧
    (runTokensScript true (some ⟨some [], some [], some [], some []⟩)).writes ≠ [] := by
  decide

/-- C3 (amended): the writes of a run are a pure function of the parsed
token document — the script never reads its previous output — so a
second run on unchanged input produces byte-identical content for every
file; but all four modules are unconditionally (re)written on every
successful run, the second included. -/
theorem tokensRun_writes_deterministic (cs sp ef : List Token)
    (ty : List TypographyToken) :
    runTokensScript true (some ⟨some cs, some ty, some sp, some ef⟩)
      = ⟨[(colorsPath, colorsContent cs), (typographyPath, typographyContent ty),
          (spacingPath, spacingContent sp), (effectsPath, effectsContent ef)],
         .ok⟩ :=
  rfl

/-- C4: on the token document `{colors: [{name: "primary",
value: "#3B82F6"}]}` the pipeline writes a colors token module whose
content exports the mapping `'primary': '#3B82F6'` (the single entry of
the module), and the entry's name is recoverable from the emitted
line. -/
theorem tokensRun_scenario_colorsModule :
    (runTokensScript true
        (some ⟨some [⟨"primary", "#3B82F6"⟩], none, none, none⟩)).writes
      = [(colorsPath,
          "/**\n * Color Tokens\n * Generated from design-tokens.json\n * DO NOT EDIT: This file is auto-generated\n */\n\nexport const colors = \x7b\n  \x27primary\x27: \x27#3B82F6\x27,\n\x7d as const;\n\nexport type ColorToken = keyof typeof colors;\n")] ∧
    entryName (tokenLine ⟨"primary", "#3B82F6"⟩) = "primary" := by
  exact ⟨rfl, rfl⟩

/-- C5 (counterexample): the catalog `[X → Y, Y → X]` contains the cycle
X→Y→X, yet component generation neither raises a
`CyclicDependencyError` nor exits non-zero: it succeeds with exit code
0 (it is an unimplemented placeholder). -/
theorem componentGen_cycle_noError :
    hasRef [⟨"X", ["Y"]⟩, ⟨"Y", ["X"]⟩] "X" "Y" = true ∧
    hasRef [⟨"X", ["Y"]⟩, ⟨"Y", ["X"]⟩] "Y" "X" = true ∧
    (runGenerateComponents [⟨"X", ["Y"]⟩, ⟨"Y", ["X"]⟩] []).error = none ∧
    (runGenerateComponents [⟨"X", ["Y"]⟩, ⟨"Y", ["X"]⟩] []).exitCode = 0 := by
  decide

/-- C5 (amended): on a catalog containing a dependency cycle the run
writes no files (the script writes nothing for any input), but it does
not fail: no `CyclicDependencyError` is raised and the exit code is 0,
because the component-generation script ignores the catalog entirely. -/
theorem componentGen_cycle_amended (c : List CatalogEntry)
    (files : List (String × String)) (a b : String)
    (_h1 : hasRef c a b = true) (_h2 : hasRef c b a = true) :
    (runGenerateComponents c files).writes = [] ∧
    (runGenerateComponents c files).error = none ∧
    (runGenerateComponents c files).exitCode = 0 :=
  ⟨rfl, rfl, rfl⟩

/-- C5 (witness). -/
theorem componentGen_cycle_amended_witness :
    hasRef [⟨"X", ["Y"]⟩, ⟨"Y", ["X"]⟩] "X" "Y" = true ∧
    (runGenerateComponents [⟨"X", ["Y"]⟩, ⟨"Y", ["X"]⟩] []).writes = [] :=
  ⟨by decide,
   (componentGen_cycle_amended [⟨"X", ["Y"]⟩, ⟨"Y", ["X"]⟩] [] "X" "Y"
     (by decide) (by decide)).1⟩

/-- C6: the naming normalizer is idempotent and registry-stable: a
second application to the same external name, against the registry
produced by the first, returns the same identifier and leaves the
registry unchanged; and whenever the registry already records the name,
the returned identifier is the recorded one and the registry is
untouched — so the identifier does not depend on catalog entry ordering
as long as the registry is preserved. -/
theorem normalize_idem_stable (reg : List NamingAlias) (name : String) :
    (normalize (normalize reg name).2 name).1 = (normalize reg name).1 ∧
    (normalize (normalize reg name).2 name).2 = (normalize reg name).2 ∧
    ∀ a, reg.find? (fun x => x.figmaName == name) = some a →
      (normalize reg name).1 = a.codeName ∧ (normalize reg name).2 = reg := by
  cases hf : reg.find? (fun a => a.figmaName == name) with
  | some a =>
    have h1 : normalize reg name = (a.codeName, reg) := by
      unfold normalize
      rw [hf]
    refine ⟨by simp [h1], by simp [h1], ?_⟩
    intro b hb
    cases hb
    simp [h1]
  | none =>
    have h1 : normalize reg name
        = (disambiguate reg (sanitize name),
           reg ++ [(⟨name, disambiguate reg (sanitize name),
                     isExternalName name⟩ : NamingAlias)]) := by
      unfold normalize
      rw [hf]
    have hnew : ((reg ++ [(⟨name, disambiguate reg (sanitize name),
            isExternalName name⟩ : NamingAlias)]).find?
          (fun a => a.figmaName == name))
        = some ⟨name, disambiguate reg (sanitize name), isExternalName name⟩ := by
      rw [find?_append_of_none _ _ _ hf]
      simp [List.find?_cons]
    have h2 : normalize (reg ++ [(⟨name, disambiguate reg (sanitize name),
            isExternalName name⟩ : NamingAlias)]) name
        = (disambiguate reg (sanitize name),
           reg ++ [(⟨name, disambiguate reg (sanitize name),
                     isExternalName name⟩ : NamingAlias)]) := by
      unfold normalize
      rw [hnew]
    refine ⟨by simp [h1, h2], by simp [h1, h2], ?_⟩
    intro b hb
    simp at hb

/-- C6 (witness). -/
theorem normalize_idem_stable_witness :
    (normalize (normalize [] "DS/button-primary").2 "DS/button-primary").1
      = (normalize [] "DS/button-primary").1 ∧
    (normalize [⟨"icon/arrow-left", "ArrowLeftIcon", true⟩] "icon/arrow-left").1
      = "ArrowLeftIcon" :=
  ⟨(normalize_idem_stable [] "DS/button-primary").1,
   ((normalize_idem_stable [⟨"icon/arrow-left", "ArrowLeftIcon", true⟩]
      "icon/arrow-left").2.2 ⟨"icon/arrow-left", "ArrowLeftIcon", true⟩
      (by decide)).1⟩

/-- C7 (counterexample): a StyledValue whose `tokenName` is the empty
string — which does exist in the loaded TokenSet, with value
`#000000` — and whose literal is `#FFFFFF` resolves to the literal, not
the token reference: the JavaScript truthiness test treats the empty
token name as unset. -/
theorem resolveStyled_emptyName_literal :
    lookupToken [⟨"", "#000000"⟩] "" = some "#000000" ∧
    (⟨some "", some "#FFFFFF"⟩ : StyledValue).tokenName ≠ none ∧
    resolveStyled [⟨"", "#000000"⟩] ⟨some "", some "#FFFFFF"⟩ = some "#FFFFFF" := by
  decide

/-- C7 (amended): whenever `tokenName` is set to a nonempty name that
exists in the loaded TokenSet, resolution returns the token's value —
never the literal, whatever it is. -/
theorem resolveStyled_prefersToken (colors : List Token) (sv : StyledValue)
    (n v : String) (hn : sv.tokenName = some n) (hne : n ≠ "")
    (hv : lookupToken colors n = some v) :
    resolveStyled colors sv = some v := by
  simp [resolveStyled, truthyStr, hn, hne, hv]

/-- C7 (witness). -/
theorem resolveStyled_prefersToken_witness :
    resolveStyled [⟨"primary", "#3B82F6"⟩] ⟨some "primary", some "#FFFFFF"⟩
      = some "#3B82F6" :=
  resolveStyled_prefersToken [⟨"primary", "#3B82F6"⟩]
    ⟨some "primary", some "#FFFFFF"⟩ "primary" "#3B82F6" rfl
    (by decide) (by decide)

/-- C8: a full run writes one module per category, in the fixed order
colors, typography, spacing, effects, and each module's entry list is
the input array mapped in order: for quote-free token names, the name
recovered from the `i`-th emitted entry is the name of the `i`-th input
record — insertion order is preserved in every emitted module. -/
theorem tokensRun_insertionOrder (cs sp ef : List Token)
    (ty : List TypographyToken)
    (hc : ∀ t ∈ cs, ∀ c ∈ (Token.name t).data, c ≠ squote)
    (hty : ∀ t ∈ ty, ∀ c ∈ (TypographyToken.name t).data, c ≠ squote)
    (hs : ∀ t ∈ sp, ∀ c ∈ (Token.name t).data, c ≠ squote)
    (he : ∀ t ∈ ef, ∀ c ∈ (Token.name t).data, c ≠ squote) :
    (runTokensScript true (some ⟨some cs, some ty, some sp, some ef⟩)).writes
      = [(colorsPath, colorsContent cs), (typographyPath, typographyContent ty),
         (spacingPath, spacingContent sp), (effectsPath, effectsContent ef)] ∧
    (cs.map tokenLine).map entryName = cs.map Token.name ∧
    (ty.map typographyEntry).map entryName = ty.map TypographyToken.name ∧
    (sp.map tokenLine).map entryName = sp.map Token.name ∧
    (ef.map tokenLine).map entryName = ef.map Token.name :=
  ⟨rfl, map_entryName_tokenLine cs hc, map_entryName_typographyEntry ty hty,
   map_entryName_tokenLine sp hs, map_entryName_tokenLine ef he⟩

/-- C8 (witness). -/
theorem tokensRun_insertionOrder_witness :
    ([⟨"primary", "#3B82F6"⟩, ⟨"secondary", "#10B981"⟩].map
        (tokenLine)).map entryName
      = ["primary", "secondary"] :=
  (tokensRun_insertionOrder
    [⟨"primary", "#3B82F6"⟩, ⟨"secondary", "#10B981"⟩]
    [⟨"sm", "8px"⟩] [] [⟨"body", "Inter", "16px", 400, "1.5"⟩]
    (by decide) (by decide) (by decide) (by decide)).2.1

/-- C9: the entry point's exit code is 0 exactly on a successful run
(input file present, JSON parses, and every unguarded category array
present), and is 1 on the unrecoverable I/O failure of a missing
`design-tokens.json`.  The script contains no `SchemaError`,
`CyclicDependencyError` or `ManualEditConflict`, so those clauses of the
claim hold vacuously. -/
theorem tokensRun_exitCode_spec (fe : Bool) (p : Option TokenDoc) :
    (exitCode (runTokensScript fe p) = 0 ↔ scriptSucceeds fe p) ∧
    (fe = false → exitCode (runTokensScript fe p) = 1) := by
  cases fe with
  | false => simp [runTokensScript, exitCode, scriptSucceeds]
  | true =>
    refine ⟨?_, by intro h; cases h⟩
    cases p with
    | none => simp [runTokensScript, exitCode, scriptSucceeds]
    | some d =>
      obtain ⟨oc, oty, osp, oe⟩ := d
      cases oc <;> cases oty <;> cases oe <;>
        simp [runTokensScript, exitCode, scriptSucceeds]

/-- C9 (witness). -/
theorem tokensRun_exitCode_spec_witness :
    exitCode (runTokensScript false none) = 1 :=
  (tokensRun_exitCode_spec false none).2 rfl

/-- C10: only the spacing category is guarded against absence
(`tokens.spacing || []`): a document missing `colors` crashes with an
uncaught TypeError before any write; missing `typography` crashes after
`colors.ts` was written; missing `effects` crashes after `colors.ts`,
`typography.ts` and `spacing.ts` were written; a missing `spacing` does
not fail at all (the module is generated from the empty list); and no
run ever produces a `SchemaError`. -/
theorem tokensRun_spacingOnlyGuarded (d : TokenDoc) :
    (d.colors = none →
      runTokensScript true (some d) = ⟨[], .typeError "colors"⟩) ∧
    (∀ cs, d.colors = some cs → d.typography = none →
      runTokensScript true (some d)
        = ⟨[(colorsPath, colorsContent cs)], .typeError "typography"⟩) ∧
    (∀ cs ty, d.colors = some cs → d.typography = some ty → d.effects = none →
      runTokensScript true (some d)
        = ⟨[(colorsPath, colorsContent cs), (typographyPath, typographyContent ty),
            (spacingPath, spacingContent (d.spacing.getD []))],
           .typeError "effects"⟩) ∧
    (∀ cs ty ef, d.colors = some cs → d.typography = some ty →
      d.spacing = none → d.effects = some ef →
      runTokensScript true (some d)
        = ⟨[(colorsPath, colorsContent cs), (typographyPath, typographyContent ty),
            (spacingPath, spacingContent []), (effectsPath, effectsContent ef)],
           .ok⟩) ∧
    (∀ f, (runTokensScript true (some d)).outcome ≠ .schemaError f) := by
  obtain ⟨oc, oty, osp, oe⟩ := d
  refine ⟨?_, ?_, ?_, ?_, ?_⟩
  · intro hc
    cases hc
    rfl
  · intro cs hc hty
    cases hc
    cases hty
    rfl
  · intro cs ty hc hty he
    cases hc
    cases hty
    cases he
    rfl
  · intro cs ty ef hc hty hsp he
    cases hc
    cases hty
    cases hsp
    cases he
    rfl
  · intro f
    cases oc <;> cases oty <;> cases oe <;> simp [runTokensScript]

/-- C10 (witness). -/
theorem tokensRun_spacingOnlyGuarded_witness :
    runTokensScript true (some ⟨some [], none, none, none⟩)
      = ⟨[(colorsPath, colorsContent [])], .typeError "typography"⟩ :=
  (tokensRun_spacingOnlyGuarded ⟨some [], none, none, none⟩).2.1 [] rfl rfl

end Blueprint
